import Mathlib

/-!
Shallow embedding of the ESP32-C3 "barrique" sensor firmware control core
(repository ChtLam33/ESP32-CREU-BARRIQUE) and proofs about it.

The repository ships several revisions of the same sketch:
* `src/sketch_dec5a8TESTESPC3/sketch_dec5a8TESTESPC3.ino` (v1.1.2), embedded in
  namespace `V112`;
* `src/unnamed/part_000` (v1.1.3), identical to v1.1.2 in all logic modelled
  here (mode resolution, config fetch, OTA, sleep clamp);
* `src/unnamed/part_001` (v1.0.8), embedded in namespace `P1`; its
  `maybeDeepSleep` and unconditional OTA check differ from v1.1.2.

External collaborators (WiFi stack, TLS transport, the ArduinoJson
deserializer, the flash `Update` object, the ADC) are modelled as oracle
fields of environment records: each field records the value the external
call returns in the run under consideration.  Machine integers
(`unsigned long` = u32) are modelled as `Nat` with explicit reduction
modulo 2^32 where the code performs u32 arithmetic.
-/

namespace Barrique

/-! ## Arduino `String` primitives

`String::toInt` is `atol`: skip leading whitespace, optional sign, then
digits up to the first non-digit (0 when there are no digits).  C `long`
overflow is not modelled; the algebraic results below hold for any value
the parse returns.  `indexOf` / `lastIndexOf` / `substring` are modelled on
the character list of the string. -/

def atolLoop : List Char → Int → Int
  | [], acc => acc
  | c :: cs, acc =>
    if c.isDigit then atolLoop cs (acc * 10 + (c.toNat - 48)) else acc

def isSpaceChar (c : Char) : Bool :=
  c = ' ' || c = '\t' || c = '\n' || c = '\r' || c = '\x0b' || c = '\x0c'

def atol (cs : List Char) : Int :=
  match cs.dropWhile isSpaceChar with
  | '-' :: rest => - atolLoop rest 0
  | '+' :: rest => atolLoop rest 0
  | s => atolLoop s 0

/-- `lastIndexOf`: index of the last occurrence of `c` in `cs`, if any. -/
def lastIdxOf (cs : List Char) (c : Char) : Option Nat :=
  match cs.reverse.findIdx? (fun x => x = c) with
  | none => none
  | some i => some (cs.length - 1 - i)

/-! ## SemVer (`parseSemver` / `compareSemver`, .ino lines 232-261)

```cpp
void parseSemver(const String& v, int &maj, int &min, int &pat) {
  maj = min = pat = 0;
  int p1 = v.indexOf('.');
  int p2 = (p1 >= 0) ? v.indexOf('.', p1 + 1) : -1;
  if (p1 < 0) { maj = v.toInt(); return; }
  maj = v.substring(0, p1).toInt();
  if (p2 < 0) { min = v.substring(p1 + 1).toInt(); return; }
  min = v.substring(p1 + 1, p2).toInt();
  pat = v.substring(p2 + 1).toInt();
}
```
Components missing from the dotted string stay at their initial 0. -/

def parseSemver (v : String) : Int × Int × Int :=
  let cs := v.data
  match cs.findIdx? (fun c => c = '.') with
  | none => (atol cs, 0, 0)
  | some p1 =>
    let maj := atol (cs.take p1)
    let rest := cs.drop (p1 + 1)
    match rest.findIdx? (fun c => c = '.') with
    | none => (maj, atol rest, 0)
    | some q => (maj, atol (rest.take q), atol (cs.drop (p1 + 1 + q + 1)))

/-- The three-way comparison on the six parsed components:
```cpp
  if (aMaj != bMaj) return (aMaj < bMaj) ? -1 : 1;
  if (aMin != bMin) return (aMin < bMin) ? -1 : 1;
  if (aPat != bPat) return (aPat < bPat) ? -1 : 1;
  return 0;
``` -/
def compareParsed (aMaj aMin aPat bMaj bMin bPat : Int) : Int :=
  if aMaj ≠ bMaj then (if aMaj < bMaj then -1 else 1)
  else if aMin ≠ bMin then (if aMin < bMin then -1 else 1)
  else if aPat ≠ bPat then (if aPat < bPat then -1 else 1)
  else 0

def compareSemver (a b : String) : Int :=
  let pa := parseSemver a
  let pb := parseSemver b
  compareParsed pa.1 pa.2.1 pa.2.2 pb.1 pb.2.1 pb.2.2

/-- Strict lexicographic order over (major, minor, patch) — the spec-side
SemVer ordering. -/
def semverLt (x y : Int × Int × Int) : Prop :=
  x.1 < y.1 ∨ (x.1 = y.1 ∧ (x.2.1 < y.2.1 ∨ (x.2.1 = y.2.1 ∧ x.2.2 < y.2.2)))

def semverLe (x y : Int × Int × Int) : Prop :=
  semverLt x y ∨ x = y

instance (x y : Int × Int × Int) : Decidable (semverLt x y) := by
  unfold semverLt; infer_instance

instance (x y : Int × Int × Int) : Decidable (semverLe x y) := by
  unfold semverLe; infer_instance

lemma compareParsed_self (a b c : Int) : compareParsed a b c a b c = 0 := by
  simp [compareParsed]

lemma compareParsed_range (a1 a2 a3 b1 b2 b3 : Int) :
    compareParsed a1 a2 a3 b1 b2 b3 = -1 ∨ compareParsed a1 a2 a3 b1 b2 b3 = 0 ∨
      compareParsed a1 a2 a3 b1 b2 b3 = 1 := by
  simp only [compareParsed]
  split_ifs <;> simp

lemma compareParsed_antisymm (a1 a2 a3 b1 b2 b3 : Int) :
    compareParsed a1 a2 a3 b1 b2 b3 = - compareParsed b1 b2 b3 a1 a2 a3 := by
  simp only [compareParsed]
  split_ifs <;> omega

lemma compareParsed_neg_iff (a1 a2 a3 b1 b2 b3 : Int) :
    compareParsed a1 a2 a3 b1 b2 b3 = -1 ↔ semverLt (a1, a2, a3) (b1, b2, b3) := by
  simp only [compareParsed, semverLt]
  split_ifs <;> simp_all

lemma compareParsed_nonneg_iff (a1 a2 a3 b1 b2 b3 : Int) :
    0 ≤ compareParsed a1 a2 a3 b1 b2 b3 ↔ semverLe (b1, b2, b3) (a1, a2, a3) := by
  simp only [compareParsed, semverLe, semverLt, Prod.mk.injEq]
  split_ifs <;> simp_all <;> omega

lemma compareParsed_trans (a1 a2 a3 b1 b2 b3 c1 c2 c3 : Int)
    (hab : compareParsed a1 a2 a3 b1 b2 b3 = -1)
    (hbc : compareParsed b1 b2 b3 c1 c2 c3 = -1) :
    compareParsed a1 a2 a3 c1 c2 c3 = -1 := by
  rw [compareParsed_neg_iff] at hab hbc ⊢
  simp only [semverLt] at hab hbc ⊢
  omega

lemma compareSemver_eq_compareParsed (a b : String) :
    compareSemver a b =
      compareParsed (parseSemver a).1 (parseSemver a).2.1 (parseSemver a).2.2
        (parseSemver b).1 (parseSemver b).2.1 (parseSemver b).2.2 := rfl

/-- C7: `compareSemver` restricted to the strict case `-1` is transitive
(so the induced order is a total order on parse results), comparing any
version string with itself yields `0` ("Equal"), and components missing
from the dotted string parse as 0 (a string with no dot parses as
`(major, 0, 0)`; `"1"` ↦ `(1,0,0)`, `"1.2"` ↦ `(1,2,0)`,
`"1.2.3"` ↦ `(1,2,3)`). -/
theorem semver_total_order :
    (∀ a b c : String, compareSemver a b = -1 → compareSemver b c = -1 →
        compareSemver a c = -1)
    ∧ (∀ a : String, compareSemver a a = 0)
    ∧ (∀ v : String, v.data.findIdx? (fun c => c = '.') = none →
        parseSemver v = (atol v.data, 0, 0))
    ∧ parseSemver "1" = (1, 0, 0) ∧ parseSemver "1.2" = (1, 2, 0)
    ∧ parseSemver "1.2.3" = (1, 2, 3) := by
  refine ⟨?_, ?_, ?_, by decide, by decide, by decide⟩
  · intro a b c hab hbc
    rw [compareSemver_eq_compareParsed] at hab hbc ⊢
    exact compareParsed_trans _ _ _ _ _ _ _ _ _ hab hbc
  · intro a
    rw [compareSemver_eq_compareParsed]
    exact compareParsed_self _ _ _
  · intro v h
    simp [parseSemver, h]

/-- Witness for `semver_total_order`, discharging its hypotheses at
concrete version strings. -/
theorem semver_total_order_witness :
    compareSemver "1.0.0" "1.0.2" = -1 ∧ compareSemver "2.3.4" "2.3.4" = 0 :=
  ⟨semver_total_order.1 "1.0.0" "1.0.1" "1.0.2" (by decide) (by decide),
   semver_total_order.2.1 "2.3.4"⟩

/-- C9: on all version strings, `compareSemver` returns only `-1`, `0` or
`1`; it is antisymmetric (`compareSemver a b = -(compareSemver b a)`); and
`compareSemver a a = 0`. -/
theorem compareSemver_trichotomy_antisymm :
    (∀ a b : String,
        compareSemver a b = -1 ∨ compareSemver a b = 0 ∨ compareSemver a b = 1)
    ∧ (∀ a b : String, compareSemver a b = - compareSemver b a)
    ∧ (∀ a : String, compareSemver a a = 0) := by
  refine ⟨?_, ?_, ?_⟩
  · intro a b
    rw [compareSemver_eq_compareParsed]
    exact compareParsed_range _ _ _ _ _ _
  · intro a b
    rw [compareSemver_eq_compareParsed, compareSemver_eq_compareParsed]
    exact compareParsed_antisymm _ _ _ _ _ _
  · intro a
    rw [compareSemver_eq_compareParsed]
    exact compareParsed_self _ _ _

/-! ## Operating mode

The sketches have no named `resolve` function: the mode is resolved by the
branch structure of `setup()` / `loop()` (v1.1.2 lines 547-558):
```cpp
  if (!maintenanceMode) {
    unsigned long intervalMs = testMode ? TEST_INTERVAL_MS : measureIntervalMs;
    const char* label = testMode ? "test 20s" : "normal";
    goToDeepSleep(label, intervalMs);   // Test or Normal
  }
  // maintenance
```
`resolveMode` is that branch structure as a pure function. -/

inductive OperatingMode where
  | Maintenance
  | Test
  | Normal
deriving DecidableEq, Repr

def resolveMode (maintenanceMode testMode : Bool) : OperatingMode :=
  if !maintenanceMode then (if testMode then .Test else .Normal)
  else .Maintenance

/-- C4: the mode precedence table holds for all four boolean combinations;
in particular when the configuration marks both `maintenance` and `test`,
Maintenance wins (the test flag has no effect on the resolved mode). -/
theorem mode_precedence_table :
    resolveMode true true = .Maintenance
    ∧ resolveMode true false = .Maintenance
    ∧ resolveMode false true = .Test
    ∧ resolveMode false false = .Normal := by decide

/-! ## u32 arithmetic and shared constants -/

/-- `unsigned long` (32-bit on ESP32-C3) value of a natural number. -/
def u32 (n : Nat) : Nat := n % 4294967296

/-- Unsigned 32-bit difference `now - last`, wrap-around included
(`millis()` timer comparisons). -/
def usub32 (a b : Nat) : Nat :=
  (a % 4294967296 + 4294967296 - b % 4294967296) % 4294967296

def DEFAULT_MEASURE_INTERVAL_S : Nat := 7 * 24 * 3600
def TEST_INTERVAL_MS : Nat := 20000
def MAINT_INTERVAL_MS : Nat := 10000
def WIFI_RETRY_INTERVAL_MS : Nat := 60000

/-! ## Extracting the JSON object from a response body

```cpp
  int start = payload.indexOf('{');
  int end   = payload.lastIndexOf('}');
  if (start < 0 || end <= start) { /* fail */ }
  String jsonStr = payload.substring(start, end + 1);
```
(the same code appears in `checkConfigUpdate` and `checkForOTAUpdate`). -/

def extractJsonL (cs : List Char) : Option (List Char) :=
  match cs.findIdx? (fun c => c = '\x7b') with
  | none => none
  | some start =>
    match lastIdxOf cs '\x7d' with
    | none => none
    | some stop =>
      if stop ≤ start then none
      else some ((cs.drop start).take (stop + 1 - start))

/-! ## Remote configuration (v1.1.2 / v1.1.3)

`RemoteConfigDoc` is the result the ArduinoJson deserializer (an external
collaborator) reports for the extracted object: `none` in a field models a
key that is absent (the code's `doc["k"] | default` then yields the
default). -/

structure RemoteConfigDoc where
  measure_interval_s : Option Nat
  maintenance : Option Bool
  test_mode : Option Bool
deriving DecidableEq, Repr

/-- The three mode/interval globals of the sketch. -/
structure Config where
  measureIntervalMs : Nat
  maintenanceMode : Bool
  testMode : Bool
deriving DecidableEq, Repr

/-- Environment of one `checkConfigUpdate` call: what the externals return.
`parsed` is the deserializer result on the extracted JSON object (consulted
only when brace extraction succeeds). -/
structure CfgEnv where
  wifiConnected : Bool
  connectOk : Bool
  payload : String
  parsed : Option RemoteConfigDoc
deriving DecidableEq, Repr

namespace V112

def FIRMWARE_VERSION : String := "1.1.2"

/-- `applyDefaultConfig()` (.ino lines 400-404): the state it resets the
globals to — interval `DEFAULT_MEASURE_INTERVAL_S * 1000UL` ms,
`maintenanceMode = true`, `testMode = false`. -/
def applyDefaultConfig : Config :=
  ⟨u32 (DEFAULT_MEASURE_INTERVAL_S * 1000), true, false⟩

/-- `checkConfigUpdate()` (.ino lines 406-476).  The function first calls
`applyDefaultConfig()`, so the result never depends on the previous global
state `prev`; every failure path returns with the defaults in place, and
the success path overwrites all three fields from the parsed document:
```cpp
  unsigned long intervalS = doc["measure_interval_s"] | DEFAULT_MEASURE_INTERVAL_S;
  if (intervalS == 0) intervalS = DEFAULT_MEASURE_INTERVAL_S;
  measureIntervalMs = intervalS * 1000UL;
  maintenanceMode = doc["maintenance"] | true;
  testMode        = doc["test_mode"]   | false;
``` -/
def checkConfigUpdate (prev : Config) (env : CfgEnv) : Config :=
  if env.wifiConnected = false then applyDefaultConfig
  else if env.connectOk = false then applyDefaultConfig
  else
    match extractJsonL env.payload.data with
    | none => applyDefaultConfig
    | some _ =>
      match env.parsed with
      | none => applyDefaultConfig
      | some doc =>
        let intervalS := u32 (doc.measure_interval_s.getD DEFAULT_MEASURE_INTERVAL_S)
        let intervalS := if intervalS = 0 then DEFAULT_MEASURE_INTERVAL_S else intervalS
        ⟨u32 (intervalS * 1000), doc.maintenance.getD true, doc.test_mode.getD false⟩

/-- C5: every failing configuration fetch — disconnected, transport
failure, missing braces, or deserializer error — returns exactly the
hard-coded default configuration (interval 604800 s = 604800000 ms,
maintenance true, test false), independent of the previously fetched
value `prev`.  The embedding is a total function, so no input raises an
error. -/
theorem config_fetch_failure_defaults (prev : Config) (env : CfgEnv)
    (h : env.wifiConnected = false ∨ env.connectOk = false ∨
         extractJsonL env.payload.data = none ∨ env.parsed = none) :
    checkConfigUpdate prev env = applyDefaultConfig
    ∧ applyDefaultConfig = ⟨604800000, true, false⟩ := by
  refine ⟨?_, by decide⟩
  rcases h with h | h | h | h
  · simp [checkConfigUpdate, h]
  · cases hw : env.wifiConnected <;> simp [checkConfigUpdate, h, hw]
  · cases hw : env.wifiConnected <;> cases hc : env.connectOk <;>
      simp [checkConfigUpdate, h, hw, hc]
  · cases hw : env.wifiConnected <;> cases hc : env.connectOk <;>
      rcases hex : extractJsonL env.payload.data with _ | j <;>
      simp [checkConfigUpdate, h, hw, hc, hex]

/-- Witness for `config_fetch_failure_defaults`: a connected fetch whose
response body has no braces (and no parse) yields the default config. -/
theorem config_fetch_failure_defaults_witness :
    checkConfigUpdate ⟨1234, false, true⟩ ⟨true, true, "no json here", none⟩
        = applyDefaultConfig
    ∧ applyDefaultConfig = ⟨604800000, true, false⟩ :=
  config_fetch_failure_defaults ⟨1234, false, true⟩
    ⟨true, true, "no json here", none⟩ (Or.inr (Or.inr (Or.inr rfl)))

/-- C8: on a successfully parsed configuration whose `measure_interval_s`
is absent or `0`, the resolved interval is the default 604800 s
(604800000 ms), never zero. -/
theorem config_zero_interval_defaults (prev : Config) (env : CfgEnv)
    (doc : RemoteConfigDoc)
    (hw : env.wifiConnected = true) (hc : env.connectOk = true)
    (hex : (extractJsonL env.payload.data).isSome = true)
    (hp : env.parsed = some doc)
    (hz : doc.measure_interval_s = none ∨ doc.measure_interval_s = some 0) :
    (checkConfigUpdate prev env).measureIntervalMs = 604800000 := by
  obtain ⟨j, hj⟩ := Option.isSome_iff_exists.mp hex
  rcases hz with hz | hz <;>
    simp [checkConfigUpdate, hw, hc, hj, hp, hz, u32, DEFAULT_MEASURE_INTERVAL_S]

/-- Witness for `config_zero_interval_defaults` at a concrete environment
with `measure_interval_s = 0`. -/
theorem config_zero_interval_defaults_witness :
    (checkConfigUpdate ⟨7, true, true⟩
        ⟨true, true, "\x7b\x7d", some ⟨some 0, some true, some false⟩⟩).measureIntervalMs
      = 604800000 :=
  config_zero_interval_defaults ⟨7, true, true⟩
    ⟨true, true, "\x7b\x7d", some ⟨some 0, some true, some false⟩⟩
    ⟨some 0, some true, some false⟩ rfl rfl (by decide) rfl (Or.inr rfl)

end V112

/-! ## Firmware update check (`checkForOTAUpdate`)

The function body is identical in v1.1.2 (.ino lines 263-395), v1.1.3 and
v1.0.8 up to the `FIRMWARE_VERSION` constant, so it is embedded once,
parametrised by the current version.  Each C++ `return` before a restart
maps to an `OtaResult`:
* `outcome` — `Failed` for transport/parse/size/verify failures (spec §7
  resolves every `UpdateError` to `Failed`), `NoUpdate` for the
  version-comparison early return, `Applied` for the success path;
* `finalized` — true only on the success path (`Update.end()` returned
  true and `Update.isFinished()`), after which the code restarts into the
  new image.  On the size-mismatch path the code calls `Update.end()` with
  bytes still remaining, which aborts the transaction (the ESP32 `Update`
  library aborts unless the full declared length was written), so the
  running image is unchanged and `finalized` is false;
* `downloadAttempted` — true on every path past the version comparison
  (the code then starts `https.begin(...)` on the firmware URL). -/

inductive UpdateOutcome where
  | NoUpdate
  | Applied
  | Failed
deriving DecidableEq, Repr

structure OtaResult where
  outcome : UpdateOutcome
  finalized : Bool
  downloadAttempted : Bool
deriving DecidableEq, Repr

/-- ArduinoJson result for `firmware.json`: `{"version": ..., "url": ...}`
with `none` for an absent key. -/
structure FirmwareDoc where
  version : Option String
  url : Option String
deriving DecidableEq, Repr

/-- Environment of one `checkForOTAUpdate` call: what each external call
returns in the run under consideration.  `parsed` is the deserializer
result on the extracted JSON object; `httpCode`/`contentLength` come from
the firmware GET; `writtenBytes` is what `Update.writeStream` reports;
`updateBeginOk`/`updateEndOk`/`updateIsFinished` are the `Update` library
results on the success path. -/
structure OtaEnv where
  wifiConnected : Bool
  connectOk : Bool
  payload : String
  parsed : Option FirmwareDoc
  httpBeginOk : Bool
  httpCode : Int
  contentLength : Int
  writtenBytes : Nat
  updateBeginOk : Bool
  updateEndOk : Bool
  updateIsFinished : Bool
deriving DecidableEq, Repr

def checkForOTAUpdateCore (currentVersion : String) (env : OtaEnv) : OtaResult :=
  if env.wifiConnected = false then ⟨.Failed, false, false⟩
  else if env.connectOk = false then ⟨.Failed, false, false⟩
  else
    match extractJsonL env.payload.data with
    | none => ⟨.Failed, false, false⟩
    | some _ =>
      match env.parsed with
      | none => ⟨.Failed, false, false⟩
      | some doc =>
        let remoteVersion := doc.version.getD ""
        let fwUrl := doc.url.getD ""
        if remoteVersion.length = 0 ∨ fwUrl.length = 0 then ⟨.Failed, false, false⟩
        else if 0 ≤ compareSemver currentVersion remoteVersion then ⟨.NoUpdate, false, false⟩
        else if env.httpBeginOk = false then ⟨.Failed, false, true⟩
        else if env.httpCode ≠ 200 then ⟨.Failed, false, true⟩
        else if env.contentLength ≤ 0 then ⟨.Failed, false, true⟩
        else if env.updateBeginOk = false then ⟨.Failed, false, true⟩
        else if env.writtenBytes ≠ env.contentLength.toNat then ⟨.Failed, false, true⟩
        else if env.updateEndOk = false then ⟨.Failed, false, true⟩
        else if env.updateIsFinished = false then ⟨.Failed, false, true⟩
        else ⟨.Applied, true, true⟩

/-- The remote version string the call works with (empty on paths where
the descriptor is unavailable, matching `doc["version"] | ""`). -/
def otaRemoteVersion (env : OtaEnv) : String :=
  match env.parsed with
  | some doc => doc.version.getD ""
  | none => ""

def otaFwUrl (env : OtaEnv) : String :=
  match env.parsed with
  | some doc => doc.url.getD ""
  | none => ""

/-- The call gets as far as the version comparison: connected, descriptor
fetched, braces found, parse succeeded, `version` and `url` nonempty. -/
def otaReachesCompare (env : OtaEnv) : Prop :=
  env.wifiConnected = true ∧ env.connectOk = true
  ∧ (extractJsonL env.payload.data).isSome = true
  ∧ env.parsed.isSome = true
  ∧ (otaRemoteVersion env).length ≠ 0
  ∧ (otaFwUrl env).length ≠ 0

/-- The call gets as far as streaming bytes into the write region:
remote version strictly newer, download opened with HTTP 200, positive
declared length, `Update.begin` succeeded. -/
def otaReachesWrite (currentVersion : String) (env : OtaEnv) : Prop :=
  otaReachesCompare env
  ∧ compareSemver currentVersion (otaRemoteVersion env) < 0
  ∧ env.httpBeginOk = true ∧ env.httpCode = 200
  ∧ 0 < env.contentLength ∧ env.updateBeginOk = true

instance (env : OtaEnv) : Decidable (otaReachesCompare env) := by
  unfold otaReachesCompare
  infer_instance

instance (currentVersion : String) (env : OtaEnv) :
    Decidable (otaReachesWrite currentVersion env) := by
  unfold otaReachesWrite
  infer_instance

lemma compareSemver_range (a b : String) :
    compareSemver a b = -1 ∨ compareSemver a b = 0 ∨ compareSemver a b = 1 := by
  rw [compareSemver_eq_compareParsed]
  exact compareParsed_range _ _ _ _ _ _

lemma compareSemver_neg_iff (a b : String) :
    compareSemver a b = -1 ↔ semverLt (parseSemver a) (parseSemver b) := by
  rw [compareSemver_eq_compareParsed]
  exact compareParsed_neg_iff _ _ _ _ _ _

lemma compareSemver_nonneg_iff (a b : String) :
    0 ≤ compareSemver a b ↔ semverLe (parseSemver b) (parseSemver a) := by
  rw [compareSemver_eq_compareParsed]
  exact compareParsed_nonneg_iff _ _ _ _ _ _

namespace V112

def checkForOTAUpdate (env : OtaEnv) : OtaResult :=
  checkForOTAUpdateCore FIRMWARE_VERSION env

/-- C2: if the byte count streamed into the write region differs from the
declared content length, the update outcome is `Failed` and the
transaction is never finalized, so the running image is unchanged. -/
theorem ota_size_mismatch_fails (env : OtaEnv)
    (hreach : otaReachesWrite FIRMWARE_VERSION env)
    (hmis : env.writtenBytes ≠ env.contentLength.toNat) :
    checkForOTAUpdate env = ⟨.Failed, false, true⟩ := by
  obtain ⟨⟨hw, hc, hex, hp, hv, hu⟩, hcmp, hb, hcode, hlen, hub⟩ := hreach
  obtain ⟨j, hj⟩ := Option.isSome_iff_exists.mp hex
  obtain ⟨doc, hdoc⟩ := Option.isSome_iff_exists.mp hp
  simp only [otaRemoteVersion, hdoc] at hv hcmp
  simp only [otaFwUrl, hdoc] at hu
  have hcmp' : ¬ (0 ≤ compareSemver FIRMWARE_VERSION (doc.version.getD "")) := by
    omega
  have hlen' : ¬ (env.contentLength ≤ 0) := by omega
  simp [checkForOTAUpdate, checkForOTAUpdateCore, hw, hc, hj, hdoc, hv, hu,
    hcmp', hb, hcode, hlen', hub, hmis]

/-- Witness for `ota_size_mismatch_fails`: 99 of 100 declared bytes
written. -/
theorem ota_size_mismatch_fails_witness :
    checkForOTAUpdate
        ⟨true, true, "\x7b\x7d", some ⟨some "9.9.9", some "u"⟩,
          true, 200, 100, 99, true, true, true⟩
      = ⟨.Failed, false, true⟩ :=
  ota_size_mismatch_fails
    ⟨true, true, "\x7b\x7d", some ⟨some "9.9.9", some "u"⟩,
      true, 200, 100, 99, true, true, true⟩
    (by decide) (by decide)

/-- C6: whenever the check reaches the version comparison, it returns
`NoUpdate` (no download) exactly when the remote version is ≤ the current
version in SemVer order, and proceeds to the download exactly when the
remote version is strictly greater; concretely, current `"1.1.2"` is
strictly below remote `"1.1.3"`, `"1.1.3"` is strictly above `"1.1.2"`,
and `"1.1.3"` equals itself. -/
theorem ota_update_decision (env : OtaEnv) (hreach : otaReachesCompare env) :
    ((checkForOTAUpdate env).outcome = .NoUpdate ↔
        semverLe (parseSemver (otaRemoteVersion env)) (parseSemver FIRMWARE_VERSION))
    ∧ ((checkForOTAUpdate env).downloadAttempted = true ↔
        semverLt (parseSemver FIRMWARE_VERSION) (parseSemver (otaRemoteVersion env)))
    ∧ compareSemver "1.1.2" "1.1.3" = -1
    ∧ compareSemver "1.1.3" "1.1.2" = 1
    ∧ compareSemver "1.1.3" "1.1.3" = 0 := by
  obtain ⟨hw, hc, hex, hp, hv, hu⟩ := hreach
  obtain ⟨j, hj⟩ := Option.isSome_iff_exists.mp hex
  obtain ⟨doc, hdoc⟩ := Option.isSome_iff_exists.mp hp
  simp only [otaRemoteVersion, hdoc] at hv ⊢
  simp only [otaFwUrl, hdoc] at hu
  by_cases hcmp : 0 ≤ compareSemver FIRMWARE_VERSION (doc.version.getD "")
  · have hle := (compareSemver_nonneg_iff _ _).mp hcmp
    have hnlt : ¬ semverLt (parseSemver FIRMWARE_VERSION)
        (parseSemver (doc.version.getD "")) := by
      rw [← compareSemver_neg_iff]
      omega
    refine ⟨?_, ?_, by decide, by decide, by decide⟩ <;>
      simp [checkForOTAUpdate, checkForOTAUpdateCore, hw, hc, hj, hdoc, hv, hu,
        hcmp, hle, hnlt]
  · have hr := compareSemver_range FIRMWARE_VERSION (doc.version.getD "")
    have hlt : semverLt (parseSemver FIRMWARE_VERSION)
        (parseSemver (doc.version.getD "")) := by
      rw [← compareSemver_neg_iff]
      omega
    have hnle : ¬ semverLe (parseSemver (doc.version.getD ""))
        (parseSemver FIRMWARE_VERSION) := by
      rw [← compareSemver_nonneg_iff]
      omega
    refine ⟨?_, ?_, by decide, by decide, by decide⟩ <;>
      · simp [checkForOTAUpdate, checkForOTAUpdateCore, hw, hc, hj, hdoc, hv, hu,
          hcmp, hlt, hnle]
        split_ifs <;> simp

/-- Witness for `ota_update_decision`: with remote `"1.1.3"` and current
`"1.1.2"` the check proceeds to the download. -/
theorem ota_update_decision_witness :
    (checkForOTAUpdate
        ⟨true, true, "\x7b\x7d", some ⟨some "1.1.3", some "u"⟩,
          false, 0, 0, 0, false, false, false⟩).downloadAttempted = true :=
  (ota_update_decision
    ⟨true, true, "\x7b\x7d", some ⟨some "1.1.3", some "u"⟩,
      false, 0, 0, 0, false, false, false⟩
    (by decide)).2.1.mpr (by decide)

end V112

/-! ## Control flow (v1.1.2 `setup()` / `loop()`)

The per-cycle work is abstracted into three observable events; the WiFi /
measurement / POST side effects themselves are external. -/

inductive Event where
  | measurement
  | configFetch
  | otaCheck
deriving DecidableEq, Repr

/-- `retryWiFiIfNeeded()` (.ino 167-179): the only modelled state effect
is on `lastWifiRetryMs` (the reconnect attempt itself is external). -/
def retryWiFiIfNeeded (wifiConnected : Bool) (now lastWifiRetryMs : Nat) : Nat :=
  if wifiConnected then lastWifiRetryMs
  else if usub32 now lastWifiRetryMs < WIFI_RETRY_INTERVAL_MS then lastWifiRetryMs
  else now

namespace V112

/-- `goToDeepSleep` (.ino 481-494), modelled as the armed wake-up delay in
milliseconds:
```cpp
  if (intervalMs < 5000UL) intervalMs = 5000UL; // sécurité
  uint64_t sleepUs = (uint64_t)intervalMs * 1000ULL;
  esp_sleep_enable_timer_wakeup(sleepUs);
  esp_deep_sleep_start();                       // never returns
``` -/
def goToDeepSleep (intervalMs : Nat) : Nat :=
  if intervalMs < 5000 then 5000 else intervalMs

lemma goToDeepSleep_min (intervalMs : Nat) : 5000 ≤ goToDeepSleep intervalMs := by
  unfold goToDeepSleep
  split_ifs <;> omega

/-- The mutable globals that drive `loop()`. -/
structure LoopState where
  measureIntervalMs : Nat
  maintenanceMode : Bool
  testMode : Bool
  lastMeasureMs : Nat
  lastWifiRetryMs : Nat
deriving DecidableEq, Repr

/-- Result of `setup()`: suspend (label, requested interval, armed
duration, events performed before suspending), restart into a new image
(OTA applied), or fall through to `loop()` in maintenance mode. -/
inductive SetupResult where
  | sleep (label : String) (requestedMs armedMs : Nat) (events : List Event)
  | restart (events : List Event)
  | enterLoop (s : LoopState) (events : List Event)
deriving DecidableEq, Repr

/-- Result of one `loop()` iteration. -/
inductive LoopResult where
  | sleep (label : String) (requestedMs armedMs : Nat) (events : List Event)
  | restart (events : List Event)
  | next (s : LoopState) (events : List Event)
deriving DecidableEq, Repr

/-- `setup()` (.ino 518-563): boot with the globals at their initializers
(= `applyDefaultConfig`), measure + POST, fetch the configuration, then
branch on the resolved mode:
```cpp
  if (!maintenanceMode) {
    unsigned long intervalMs = testMode ? TEST_INTERVAL_MS : measureIntervalMs;
    const char* label = testMode ? "test 20s" : "normal";
    goToDeepSleep(label, intervalMs);   // ne revient jamais
  }
  checkForOTAUpdate();                  // OTA autorisé uniquement ici
``` -/
def setupFlow (c : CfgEnv) (o : OtaEnv) (now : Nat) : SetupResult :=
  let cfg := checkConfigUpdate applyDefaultConfig c
  if cfg.maintenanceMode = false then
    .sleep (if cfg.testMode then "test 20s" else "normal")
      (if cfg.testMode then TEST_INTERVAL_MS else cfg.measureIntervalMs)
      (goToDeepSleep (if cfg.testMode then TEST_INTERVAL_MS else cfg.measureIntervalMs))
      [.measurement, .configFetch]
  else
    if (checkForOTAUpdate o).finalized then
      .restart [.measurement, .configFetch, .otaCheck]
    else
      .enterLoop ⟨cfg.measureIntervalMs, cfg.maintenanceMode, cfg.testMode, now, now⟩
        [.measurement, .configFetch, .otaCheck]

/-- The events `setup()` performs, whatever its result. -/
def setupEvents (c : CfgEnv) (o : OtaEnv) (now : Nat) : List Event :=
  match setupFlow c o now with
  | .sleep _ _ _ evs => evs
  | .restart evs => evs
  | .enterLoop _ evs => evs

/-- One iteration of `loop()` (.ino 568-588):
```cpp
  if (!maintenanceMode) {
    unsigned long intervalMs = testMode ? TEST_INTERVAL_MS : measureIntervalMs;
    goToDeepSleep(label, intervalMs);
  }
  retryWiFiIfNeeded();
  unsigned long now = millis();
  if (now - lastMeasureMs >= MAINT_INTERVAL_MS) {
    lastMeasureMs = now;
    doOneMeasurement();
    checkConfigUpdate();   // peut changer maintenance/test/interval
    checkForOTAUpdate();   // may restart on success
  }
``` -/
def loopIter (s : LoopState) (now : Nat) (wifiConnected : Bool)
    (c : CfgEnv) (o : OtaEnv) : LoopResult :=
  if s.maintenanceMode = false then
    .sleep (if s.testMode then "test 20s" else "normal")
      (if s.testMode then TEST_INTERVAL_MS else s.measureIntervalMs)
      (goToDeepSleep (if s.testMode then TEST_INTERVAL_MS else s.measureIntervalMs))
      []
  else
    let wifiRetry := retryWiFiIfNeeded wifiConnected now s.lastWifiRetryMs
    if MAINT_INTERVAL_MS ≤ usub32 now s.lastMeasureMs then
      let cfg := checkConfigUpdate ⟨s.measureIntervalMs, s.maintenanceMode, s.testMode⟩ c
      if (checkForOTAUpdate o).finalized then
        .restart [.measurement, .configFetch, .otaCheck]
      else
        .next ⟨cfg.measureIntervalMs, cfg.maintenanceMode, cfg.testMode, now, wifiRetry⟩
          [.measurement, .configFetch, .otaCheck]
    else
      .next ⟨s.measureIntervalMs, s.maintenanceMode, s.testMode, s.lastMeasureMs, wifiRetry⟩ []

/-- C1 (amended): in the v1.1.2/v1.1.3 sketches `goToDeepSleep` clamps its
argument to a floor of 5000 ms (1000 ↦ 5000), so every suspension in the
v1.1.2 control flow — `setup()` or `loop()` — arms at least 5000 ms.  (The
clamp does not cover the v1.0.8 variant: see the counterexample on
`P1.maybeDeepSleep`.) -/
theorem sleep_floor_v112 :
    (∀ intervalMs : Nat, 5000 ≤ goToDeepSleep intervalMs)
    ∧ goToDeepSleep 1000 = 5000
    ∧ (∀ (s : LoopState) (now : Nat) (w : Bool) (c : CfgEnv) (o : OtaEnv)
        (label : String) (req armed : Nat) (evs : List Event),
        loopIter s now w c o = .sleep label req armed evs → 5000 ≤ armed)
    ∧ (∀ (c : CfgEnv) (o : OtaEnv) (now : Nat)
        (label : String) (req armed : Nat) (evs : List Event),
        setupFlow c o now = .sleep label req armed evs → 5000 ≤ armed) := by
  refine ⟨goToDeepSleep_min, by decide, ?_, ?_⟩
  · intro s now w c o label req armed evs h
    by_cases hm : s.maintenanceMode = false
    · simp only [loopIter, hm, if_pos, LoopResult.sleep.injEq] at h
      obtain ⟨-, -, ha, -⟩ := h
      exact le_of_le_of_eq (goToDeepSleep_min _) ha
    · simp only [loopIter, hm] at h
      split_ifs at h <;> simp_all
  · intro c o now label req armed evs h
    by_cases hm : (checkConfigUpdate applyDefaultConfig c).maintenanceMode = false
    · simp only [setupFlow, hm, if_pos, SetupResult.sleep.injEq] at h
      obtain ⟨-, -, ha, -⟩ := h
      exact le_of_le_of_eq (goToDeepSleep_min _) ha
    · simp only [setupFlow, hm] at h
      split_ifs at h <;> simp_all

/-- Witness for `sleep_floor_v112`: a Normal-mode loop entry suspends with
the armed duration 604800000 ms, which is at least 5000 ms. -/
theorem sleep_floor_v112_witness : 5000 ≤ (604800000 : Nat) :=
  sleep_floor_v112.2.2.1 ⟨604800000, false, false, 0, 0⟩ 0 true
    ⟨true, true, "", none⟩ ⟨true, true, "", none, true, 200, 1, 1, true, true, true⟩
    "normal" 604800000 604800000 [] (by decide)

/-- C3 (amended): in the v1.1.2 `setup()`, the firmware-update check runs
exactly when the mode resolved from the boot configuration fetch is
Maintenance; when it resolves to Test or Normal, `setup()` suspends after
only the measurement and the configuration fetch, never invoking the
update check.  (This gate does not hold of the v1.0.8 variant, whose loop
invokes the update check in every mode — see the counterexample — nor
across a mid-iteration mode change in the v1.1.2 maintenance loop, where
the update check still runs once in the iteration whose fetch cleared
`maintenanceMode`.) -/
theorem ota_gate_v112 (c : CfgEnv) (o : OtaEnv) (now : Nat) :
    (Event.otaCheck ∈ setupEvents c o now ↔
        resolveMode (checkConfigUpdate applyDefaultConfig c).maintenanceMode
          (checkConfigUpdate applyDefaultConfig c).testMode = .Maintenance)
    ∧ (resolveMode (checkConfigUpdate applyDefaultConfig c).maintenanceMode
          (checkConfigUpdate applyDefaultConfig c).testMode ≠ .Maintenance →
        setupFlow c o now =
          .sleep (if (checkConfigUpdate applyDefaultConfig c).testMode then "test 20s" else "normal")
            (if (checkConfigUpdate applyDefaultConfig c).testMode then TEST_INTERVAL_MS
              else (checkConfigUpdate applyDefaultConfig c).measureIntervalMs)
            (goToDeepSleep
              (if (checkConfigUpdate applyDefaultConfig c).testMode then TEST_INTERVAL_MS
                else (checkConfigUpdate applyDefaultConfig c).measureIntervalMs))
            [Event.measurement, Event.configFetch]) := by
  by_cases hm : (checkConfigUpdate applyDefaultConfig c).maintenanceMode
  · constructor
    · simp only [setupEvents, setupFlow, hm]
      split_ifs <;> simp_all [resolveMode]
    · intro habs
      simp [resolveMode, hm] at habs
  · have hm' : (checkConfigUpdate applyDefaultConfig c).maintenanceMode = false := by
      simpa using hm
    constructor
    · simp only [setupEvents, setupFlow, hm']
      cases ht : (checkConfigUpdate applyDefaultConfig c).testMode <;>
        simp [resolveMode, hm', ht]
    · intro _
      simp [setupFlow, hm']

/-- Witness for `ota_gate_v112`: a fetched configuration resolving to
Normal makes `setup()` suspend without the update check. -/
theorem ota_gate_v112_witness :
    setupFlow ⟨true, true, "\x7b\x7d", some ⟨some 604800, some false, some false⟩⟩
        ⟨true, true, "", none, true, 200, 1, 1, true, true, true⟩ 0
      = .sleep "normal" 604800000 604800000 [Event.measurement, Event.configFetch] :=
  (ota_gate_v112 ⟨true, true, "\x7b\x7d", some ⟨some 604800, some false, some false⟩⟩
    ⟨true, true, "", none, true, 200, 1, 1, true, true, true⟩ 0).2 (by decide)

/-- C10: from a maintenance-mode loop state whose elapsed timer triggers
the measurement block, if the configuration fetch clears
`maintenanceMode` (and the update check does not restart the device), the
iteration ends in a state with `maintenanceMode = false`, and the very
next iteration — for any inputs — immediately suspends with the 20000 ms
test interval when `testMode` is set and the configured measurement
interval otherwise, performing no measurement, configuration fetch or
update check first (its event list is empty). -/
theorem maintenance_exit_sleeps_next_iteration
    (s : LoopState) (now : Nat) (w : Bool) (c : CfgEnv) (o : OtaEnv)
    (hm : s.maintenanceMode = true)
    (ht : MAINT_INTERVAL_MS ≤ usub32 now s.lastMeasureMs)
    (hcfg : (checkConfigUpdate ⟨s.measureIntervalMs, s.maintenanceMode, s.testMode⟩ c).maintenanceMode
      = false)
    (hota : (checkForOTAUpdate o).finalized = false) :
    ∃ s' : LoopState,
      loopIter s now w c o = .next s' [Event.measurement, Event.configFetch, Event.otaCheck]
      ∧ s'.maintenanceMode = false
      ∧ ∀ (now2 : Nat) (w2 : Bool) (c2 : CfgEnv) (o2 : OtaEnv),
          loopIter s' now2 w2 c2 o2 =
            .sleep (if s'.testMode then "test 20s" else "normal")
              (if s'.testMode then TEST_INTERVAL_MS else s'.measureIntervalMs)
              (goToDeepSleep (if s'.testMode then TEST_INTERVAL_MS else s'.measureIntervalMs))
              [] := by
  refine ⟨⟨(checkConfigUpdate ⟨s.measureIntervalMs, s.maintenanceMode, s.testMode⟩ c).measureIntervalMs,
    (checkConfigUpdate ⟨s.measureIntervalMs, s.maintenanceMode, s.testMode⟩ c).maintenanceMode,
    (checkConfigUpdate ⟨s.measureIntervalMs, s.maintenanceMode, s.testMode⟩ c).testMode,
    now, retryWiFiIfNeeded w now s.lastWifiRetryMs⟩, ?_, hcfg, ?_⟩
  · simp [loopIter, hm, ht, hota]
  · intro now2 w2 c2 o2
    simp [loopIter, hcfg]

/-- Witness for `maintenance_exit_sleeps_next_iteration`: a maintenance
state whose fetch returns `maintenance:false, test_mode:true`; the next
iteration suspends with the 20000 ms test interval. -/
theorem maintenance_exit_sleeps_next_iteration_witness :
    ∃ s' : LoopState,
      loopIter ⟨604800000, true, false, 0, 0⟩ 10000 true
          ⟨true, true, "\x7b\x7d", some ⟨some 604800, some false, some true⟩⟩
          ⟨true, false, "", none, false, 0, 0, 0, false, false, false⟩
        = .next s' [Event.measurement, Event.configFetch, Event.otaCheck]
      ∧ s'.maintenanceMode = false
      ∧ ∀ (now2 : Nat) (w2 : Bool) (c2 : CfgEnv) (o2 : OtaEnv),
          loopIter s' now2 w2 c2 o2 =
            .sleep (if s'.testMode then "test 20s" else "normal")
              (if s'.testMode then TEST_INTERVAL_MS else s'.measureIntervalMs)
              (goToDeepSleep (if s'.testMode then TEST_INTERVAL_MS else s'.measureIntervalMs))
              [] :=
  maintenance_exit_sleeps_next_iteration ⟨604800000, true, false, 0, 0⟩ 10000 true
    ⟨true, true, "\x7b\x7d", some ⟨some 604800, some false, some true⟩⟩
    ⟨true, false, "", none, false, 0, 0, 0, false, false, false⟩
    rfl (by decide) (by decide) (by decide)

end V112

/-! ## v1.0.8 variant (`src/unnamed/part_001`), namespace `P1`

Differences from v1.1.2 that matter here:
* the configuration has no `test_mode` field (only `measure_interval_s`
  and `maintenance`);
* `maybeDeepSleep()` (lines 482-497) arms `measureIntervalMs` directly,
  with **no** 5000 ms floor:
  ```cpp
  void maybeDeepSleep() {
    if (maintenanceMode) { return; }
    uint64_t sleepUs = (uint64_t)measureIntervalMs * 1000ULL;
    esp_sleep_enable_timer_wakeup(sleepUs);
    esp_deep_sleep_start();
  }
  ```
* `loop()` (lines 533-571) runs, whenever the measure timer elapses,
  measurement → POST → `checkConfigUpdate()` → `checkForOTAUpdate()` →
  `maybeDeepSleep()`, with no mode gate in front of the update check. -/

namespace P1

def FIRMWARE_VERSION : String := "1.0.8"

structure Config where
  measureIntervalMs : Nat
  maintenanceMode : Bool
deriving DecidableEq, Repr

/-- ArduinoJson result for the v1.0.8 config object. -/
structure CfgDoc where
  measure_interval_s : Option Nat
  maintenance : Option Bool
deriving DecidableEq, Repr

structure CfgEnv where
  wifiConnected : Bool
  connectOk : Bool
  payload : String
  parsed : Option CfgDoc
deriving DecidableEq, Repr

/-- `applyDefaultConfig()` (part_001 lines 404-407). -/
def applyDefaultConfig : Config :=
  ⟨u32 (DEFAULT_MEASURE_INTERVAL_S * 1000), true⟩

/-- `checkConfigUpdate()` (part_001 lines 409-477): resets to the defaults
first, then on a successful parse sets
```cpp
  unsigned long intervalS = doc["measure_interval_s"] | DEFAULT_MEASURE_INTERVAL_S;
  if (intervalS == 0) intervalS = DEFAULT_MEASURE_INTERVAL_S;
  measureIntervalMs = intervalS * 1000UL;
  maintenanceMode = doc["maintenance"] | true;
``` -/
def checkConfigUpdate (prev : Config) (env : CfgEnv) : Config :=
  if env.wifiConnected = false then applyDefaultConfig
  else if env.connectOk = false then applyDefaultConfig
  else
    match extractJsonL env.payload.data with
    | none => applyDefaultConfig
    | some _ =>
      match env.parsed with
      | none => applyDefaultConfig
      | some doc =>
        let intervalS := u32 (doc.measure_interval_s.getD DEFAULT_MEASURE_INTERVAL_S)
        let intervalS := if intervalS = 0 then DEFAULT_MEASURE_INTERVAL_S else intervalS
        ⟨u32 (intervalS * 1000), doc.maintenance.getD true⟩

/-- `maybeDeepSleep()`: `none` when maintenance keeps the device awake,
`some d` when the device suspends with `d` ms armed (no clamp). -/
def maybeDeepSleep (maintenanceMode : Bool) (measureIntervalMs : Nat) : Option Nat :=
  if maintenanceMode then none else some measureIntervalMs

structure LoopState where
  measureIntervalMs : Nat
  maintenanceMode : Bool
  lastMeasureMs : Nat
  lastWifiRetryMs : Nat
deriving DecidableEq, Repr

inductive LoopResult where
  | sleep (armedMs : Nat) (events : List Event)
  | restart (events : List Event)
  | next (s : LoopState) (events : List Event)
deriving DecidableEq, Repr

/-- One iteration of the v1.0.8 `loop()`. -/
def loopIter (s : LoopState) (now : Nat) (wifiConnected : Bool)
    (c : CfgEnv) (o : OtaEnv) : LoopResult :=
  let wifiRetry := retryWiFiIfNeeded wifiConnected now s.lastWifiRetryMs
  if s.measureIntervalMs ≤ usub32 now s.lastMeasureMs then
    let cfg := checkConfigUpdate ⟨s.measureIntervalMs, s.maintenanceMode⟩ c
    if (checkForOTAUpdateCore FIRMWARE_VERSION o).finalized then
      .restart [.measurement, .configFetch, .otaCheck]
    else
      match maybeDeepSleep cfg.maintenanceMode cfg.measureIntervalMs with
      | some d => .sleep d [.measurement, .configFetch, .otaCheck]
      | none => .next ⟨cfg.measureIntervalMs, cfg.maintenanceMode, now, wifiRetry⟩
          [.measurement, .configFetch, .otaCheck]
  else
    .next ⟨s.measureIntervalMs, s.maintenanceMode, s.lastMeasureMs, wifiRetry⟩ []

end P1

/-- C1 counterexample: in the v1.0.8 variant a successful fetch of
`measure_interval_s = 1, maintenance = false` sets the interval to
1000 ms, and `maybeDeepSleep` then suspends the device with 1000 ms armed
— below the claimed 5000 ms floor — so the floor does not hold on every
suspending path of the repository. -/
theorem sleep_floor_cex :
    P1.checkConfigUpdate P1.applyDefaultConfig
        ⟨true, true, "\x7b\x7d", some ⟨some 1, some false⟩⟩ = ⟨1000, false⟩
    ∧ P1.maybeDeepSleep false 1000 = some 1000
    ∧ 1000 < 5000 := by decide

/-- C3 counterexample: a v1.0.8 loop iteration in Normal mode (the
configuration keeps `maintenance = false`, and the variant has no test
flag, so `resolveMode false false = Normal`) still invokes the
firmware-update check — here it runs to its version comparison and the
remote version equals the local one — before suspending: the cycle
suspends, but only after the update check ran. -/
theorem ota_only_in_maintenance_cex :
    P1.loopIter ⟨604800000, false, 0, 0⟩ 604800000 true
        ⟨true, true, "\x7b\x7d", some ⟨some 604800, some false⟩⟩
        ⟨true, true, "\x7b\x7d", some ⟨some "1.0.8", some "u"⟩,
          false, 0, 0, 0, false, false, false⟩
      = .sleep 604800000 [Event.measurement, Event.configFetch, Event.otaCheck]
    ∧ (checkForOTAUpdateCore P1.FIRMWARE_VERSION
        ⟨true, true, "\x7b\x7d", some ⟨some "1.0.8", some "u"⟩,
          false, 0, 0, 0, false, false, false⟩).outcome = UpdateOutcome.NoUpdate
    ∧ resolveMode false false = OperatingMode.Normal := by decide

end Barrique
